import Mathlib

/-!
Verification of `packages/aws-rfdk/lib/deadline/lib/database-connection.ts`.

The file gives a shallow embedding of the two `DatabaseConnection` variants
(`DocDBDatabaseConnection` and `MongoDbInstanceDatabaseConnection`) and proves
the testable properties of the spec about them.  Hosts are modelled as boot-script
accumulators, construct node trees as association lists from child id to child,
thrown exceptions as a `some` error-message component returned before any state
mutation, and synthesis-time annotations, secret read grants and dependency
edges as explicit effect lists.
-/

namespace RFDK

/-- Operating-system kinds of a host (aws-cdk-lib `OperatingSystemType`). -/
inductive OperatingSystemType
  | LINUX
  | WINDOWS
  | UNKNOWN
deriving DecidableEq

/-- A connection target (`IHost`): its OS kind and its accumulated boot-script
commands (`userData`). -/
structure Host where
  osType : OperatingSystemType
  userData : List String
deriving DecidableEq

/-- Model of `host.userData.addCommands(...)`: append commands to the
accumulator. -/
def Host.addCommands (h : Host) (cmds : List String) : Host :=
  { h with userData := h.userData ++ cmds }

/-- Lookup of a construct child by id, modelling `node.tryFindChild(id)`. -/
def assocLookup {α : Type} : List (String × α) → String → Option α
  | [], _ => none
  | (k, v) :: rest, key => if k = key then some v else assocLookup rest key

/-- Transcription of JavaScript `String.startsWith(prefixStr)`: a character-list
prefix test. -/
def strStartsWith (s pre : String) : Bool :=
  List.isPrefixOf pre.data s.data

/-- Transcription of JavaScript `Array.join(sep)`. -/
def joinSep (sep : String) : List String → String
  | [] => ""
  | [a] => a
  | a :: b :: rest => a ++ sep ++ joinSep sep (b :: rest)

/-- The CloudFormation-level DocumentDB cluster resource (`CfnDBCluster`): its
optional engine version and its optional list of attached security group ids. -/
structure CfnDBCluster where
  engineVersion : Option String
  vpcSecurityGroupIds : Option (List String)
deriving DecidableEq

/-- A child construct in the node tree of a DocumentDB cluster: the cluster
resource itself, a data-serving instance resource (`CfnDBInstance`), or some
other construct. -/
inductive DocDBChild
  | cfnCluster (c : CfnDBCluster)
  | cfnInstance (iid : Nat)
  | otherChild (oid : Nat)
deriving DecidableEq

/-- Model of an `IDatabaseCluster`: endpoint data, the `instanceof
DatabaseCluster` test result (true exactly for an inline-provisioned L2 cluster
construct, false for one imported from attributes), and the children of the
construct node. -/
structure DocDBCluster where
  nodeId : String
  clusterHostname : String
  clusterPort : String
  isDatabaseCluster : Bool
  children : List (String × DocDBChild)
deriving DecidableEq

/-- Model of `database.node.tryFindChild(name)`. -/
def DocDBCluster.tryFindChild (db : DocDBCluster) (name : String) : Option DocDBChild :=
  assocLookup db.children name

/-- Model of `database.node.defaultChild`, per the constructs framework
(an external collaborator): the child whose id is `Resource`, else the child
whose id is `Default`.  A cluster imported from attributes has neither. -/
def DocDBCluster.defaultChild (db : DocDBCluster) : Option DocDBChild :=
  match db.tryFindChild ("Resource") with
  | some c => some c
  | none => db.tryFindChild ("Default")

/-- Severity of a synthesis-time annotation. -/
inductive Severity
  | fatalError
  | warning
deriving DecidableEq

/-- A diagnostic added during synthesis, modelling
`Annotations.of(target).addError/addWarning(message)`. -/
structure Diagnostic where
  severity : Severity
  target : String
  message : String
deriving DecidableEq

/-- A read grant of one secret to one grantee, modelling
`secret.grantRead(grantee)`. -/
structure SecretGrant where
  secretArn : String
  grantee : String
deriving DecidableEq

/-- A deploy-after dependency edge from a consumer construct to a target
construct, modelling `child.node.addDependency(target)`. -/
structure DepEdge where
  consumer : String
  target : DocDBChild
deriving DecidableEq

/-- A security group: its `securityGroupId` and its construct node id. -/
structure SecurityGroup where
  securityGroupId : String
  nodeId : String
deriving DecidableEq

/-- Options of the DocumentDB variant (`DocDBConnectionOptions`): the cluster,
plus the ARN of the login secret and the region of its owning stack. -/
structure DocDBConnectionOptions where
  database : DocDBCluster
  loginSecretArn : String
  loginRegion : String
deriving DecidableEq

/-- Model of an EBS data-volume reference of a MongoDB instance:
`isVolumeConstruct` is the result of the result of the source-level `instanceof Volume` test
(true for a provisioned `Volume` construct, false for an imported `IVolume`). -/
structure MongoVolume where
  isVolumeConstruct : Bool
  volId : Nat
deriving DecidableEq

/-- A construct reference that the `databaseConstruct` attribute can hold. -/
inductive ConstructRef
  | docdbCluster (db : DocDBCluster)
  | volume (v : MongoVolume)
deriving DecidableEq

/-- Engine version visible on a child construct after the unchecked source
cast to `CfnDBCluster` (undefined when the child is not one). -/
def DocDBChild.castEngineVersion : DocDBChild → Option String
  | DocDBChild.cfnCluster c => c.engineVersion
  | _ => none

/-- Transcription of `DocDBDatabaseConnection.isCompatibleDocDBVersion`: when a
default child exists, its engine version must start with 3.6, 4.0 or 5.0 (an
absent engine version coalesces to incompatible); with no default child the
version cannot be inspected and the cluster is assumed compatible. -/
def isCompatibleDocDBVersion (db : DocDBCluster) : Bool :=
  match db.defaultChild with
  | some ch =>
    match ch.castEngineVersion with
    | some v => strStartsWith v ("3.6") || strStartsWith v ("4.0") || strStartsWith v ("5.0")
    | none => false
  | none => true

/-- The constructed DocumentDB connection object. -/
structure DocDBDatabaseConnection where
  props : DocDBConnectionOptions
  containerEnvironment : List (String × String)
  databaseConstruct : Option ConstructRef
deriving DecidableEq

/-- Transcription of the `DocDBDatabaseConnection` constructor: the object plus
the diagnostics added while constructing it. -/
def DocDBDatabaseConnection.make (props : DocDBConnectionOptions) :
    DocDBDatabaseConnection × List Diagnostic :=
  let diags :=
    if isCompatibleDocDBVersion props.database then []
    else [⟨Severity.fatalError, props.database.nodeId,
      "engineVersion must be one of 3.6.0, 4.0.0 or 5.0.0 to be compatible with Deadline"⟩]
  (⟨props,
    [("DB_CREDENTIALS_URI", props.loginSecretArn)],
    if props.database.isDatabaseCluster then some (ConstructRef.docdbCluster props.database)
    else none⟩,
   diags)

/-- The inline JSON-field-extraction helper emitted at the top of every
generated shell function. -/
def getJsonValLine : String :=
  "getJsonVal()\x7b python3 -c \x27import json,sys;obj=json.load(sys.stdin);print(obj[\"\x27$1\x27\"])\x27; \x7d"

/-- Capture whether command tracing is currently enabled. -/
def captureTraceLine : String := "SET_X_IS_SET=$-"

/-- Force command tracing off before any secret is retrieved. -/
def traceOffLine : String := "\x7b set +x; \x7d 2>/dev/null"

/-- Restore command tracing to its captured prior state. -/
def restoreTraceLine : String :=
  "if [[ $SET_X_IS_SET =~ x ]]; then set -x; else set +x; fi"

/-- The `INSTALLER_DB_ARGS` array assignment emitted by the DocumentDB variant,
transcribed from the template literal of the source. -/
def docdbInstallerArgsLine (props : DocDBConnectionOptions) : String :=
  "INSTALLER_DB_ARGS=( [\"--dbuser\"]=$DB_USERNAME [\"--dbpassword\"]=$DB_PASSWORD [\"--dbhost\"]="
    ++ props.database.clusterHostname ++ " [\"--dbport\"]=" ++ props.database.clusterPort
    ++ " [\"--dbtype\"]=DocumentDB )"

/-- The secret-retrieval line shared by the two DocumentDB scripts. -/
def docdbFetchSecretLine (props : DocDBConnectionOptions) : String :=
  "export SECRET_STRING=`aws secretsmanager get-secret-value --secret-id " ++ props.loginSecretArn
    ++ " --region " ++ props.loginRegion ++ " | getJsonVal \x27SecretString\x27`"

/-- The credential-handoff line of the DocumentDB connection script. -/
def docdbStoreCredentialsLine : String :=
  "sudo -u ec2-user \"$\x7bdeadlinecommand\x7d\" -StoreDatabasecredentials \"$\x7bDB_USERNAME\x7d\" \"$\x7bDB_PASSWORD\x7d\""

/-- Commands emitted by `DocDBDatabaseConnection.addInstallerDBArgs`, in source
order. -/
def docdbInstallerCommands (props : DocDBConnectionOptions) : List String :=
  [ "configure_database_installation_args()\x7b",
    getJsonValLine,
    captureTraceLine,
    traceOffLine,
    docdbFetchSecretLine props,
    "DB_USERNAME=`printenv SECRET_STRING | getJsonVal \x27username\x27`",
    "DB_PASSWORD=`printenv SECRET_STRING | getJsonVal \x27password\x27`",
    "unset SECRET_STRING",
    docdbInstallerArgsLine props,
    "unset DB_USERNAME",
    "unset DB_PASSWORD",
    restoreTraceLine,
    "\x7d",
    "export -f configure_database_installation_args" ]

/-- Commands emitted by `DocDBDatabaseConnection.addConnectionDBArgs`, in source
order. -/
def docdbConnectionCommands (props : DocDBConnectionOptions) : List String :=
  [ "configure_deadline_database()\x7b",
    getJsonValLine,
    captureTraceLine,
    traceOffLine,
    docdbFetchSecretLine props,
    "DB_USERNAME=`printenv SECRET_STRING | getJsonVal \x27username\x27`",
    "DB_PASSWORD=`printenv SECRET_STRING | getJsonVal \x27password\x27`",
    "unset SECRET_STRING",
    docdbStoreCredentialsLine,
    "unset DB_USERNAME",
    "unset DB_PASSWORD",
    restoreTraceLine,
    "\x7d",
    "export -f configure_deadline_database" ]

/-- Transcription of `DocDBDatabaseConnection.addInstallerDBArgs`.  A `some`
first component is the thrown error message; the host in the second component
is unchanged in that case, since the throw precedes any mutation. -/
def DocDBDatabaseConnection.addInstallerDBArgs (props : DocDBConnectionOptions)
    (host : Host) : Option String × Host :=
  if host.osType ≠ OperatingSystemType.LINUX then
    (some ("Can only install Deadline from a Linux instance."), host)
  else
    (none, host.addCommands (docdbInstallerCommands props))

/-- Transcription of `DocDBDatabaseConnection.addConnectionDBArgs`. -/
def DocDBDatabaseConnection.addConnectionDBArgs (props : DocDBConnectionOptions)
    (host : Host) : Option String × Host :=
  if host.osType ≠ OperatingSystemType.LINUX then
    (some ("Connecting to the Deadline Database is currently only supported for Linux."), host)
  else
    (none, host.addCommands (docdbConnectionCommands props))

/-- Transcription of `DocDBDatabaseConnection.grantRead`: the read grants it
issues. -/
def DocDBDatabaseConnection.grantRead (props : DocDBConnectionOptions)
    (grantee : String) : List SecretGrant :=
  [⟨props.loginSecretArn, grantee⟩]

/-- Transcription of `DocDBDatabaseConnection.addChildDependency`, acting on
the list of dependency edges added so far. -/
def DocDBDatabaseConnection.addChildDependency (props : DocDBConnectionOptions)
    (edges : List DepEdge) (child : String) : Option String × List DepEdge :=
  match props.database.tryFindChild ("Instance1") with
  | some inst => (none, edges ++ [⟨child, inst⟩])
  | none =>
    if (props.database.defaultChild).isSome then
      (some ("The internal implementation of the AWS CDK\x27s DocumentDB cluster construct may have changed. Please update to a newer RFDK for an updated implementation, or file a ticket if this is the latest release."),
       edges)
    else (none, edges)

/-- Replacement of the child named `name` in the node tree, modelling the
in-place source mutation of the found `CfnDBCluster` child. -/
def DocDBCluster.setChild (db : DocDBCluster) (name : String) (ch : DocDBChild) :
    DocDBCluster :=
  { db with children := db.children.map (fun p => if p.1 = name then (p.1, ch) else p) }

/-- Transcription of `DocDBDatabaseConnection.addSecurityGroup`: the cluster
afterwards, together with the diagnostics added.  The source never throws
here; when the groups cannot be attached it adds one warning listing them. -/
def DocDBDatabaseConnection.addSecurityGroup (db : DocDBCluster)
    (sgs : List SecurityGroup) : DocDBCluster × List Diagnostic :=
  let failWarning : List String → Diagnostic := fun errorReasons =>
    ⟨Severity.warning, db.nodeId,
      "Failed to add the following security groups to " ++ db.nodeId ++ ": "
        ++ joinSep (", ") (sgs.map (fun sg => sg.nodeId)) ++ ". "
        ++ joinSep (" ") errorReasons⟩
  if db.isDatabaseCluster then
    match db.tryFindChild ("Resource") with
    | some (DocDBChild.cfnCluster c) =>
      let securityGroupIds := sgs.map (fun sg => sg.securityGroupId)
      let c2 : CfnDBCluster :=
        { c with vpcSecurityGroupIds :=
            match c.vpcSecurityGroupIds with
            | none => some securityGroupIds
            | some cur => some (cur ++ securityGroupIds) }
      (db.setChild ("Resource") (DocDBChild.cfnCluster c2), [])
    | _ =>
      (db, [failWarning ["The internal implementation of AWS CDK\x27s DocumentDB cluster construct has changed."]])
  else
    (db, [failWarning ["The \"database\" property passed to this class is not an instance of AWS CDK\x27s DocumentDB cluster construct."]])

/-- Model of a provisioned `MongoDbInstance` construct. -/
structure MongoDbInstanceModel where
  instId : Nat
  fullHostname : String
  port : Nat
  mongoDataVolume : MongoVolume
deriving DecidableEq

/-- Model of an `IMongoDb`: either an inline-provisioned `MongoDbInstance`
construct (the source-level `instanceof MongoDbInstance` test is true exactly
here) or a reference imported from attributes. -/
inductive MongoDb
  | provisioned (inst : MongoDbInstanceModel)
  | imported (fullHostname : String) (port : Nat)
deriving DecidableEq

/-- The hostname exposed by an `IMongoDb`. -/
def MongoDb.fullHostname : MongoDb → String
  | MongoDb.provisioned i => i.fullHostname
  | MongoDb.imported h _ => h

/-- The port exposed by an `IMongoDb`. -/
def MongoDb.port : MongoDb → Nat
  | MongoDb.provisioned i => i.port
  | MongoDb.imported _ p => p

/-- Options of the MongoDB variant (`MongoDbInstanceConnectionOptions`): the
database plus the client certificate, i.e. a cert secret and a passphrase
secret, each with the region of its owning stack. -/
structure MongoDbInstanceConnectionOptions where
  database : MongoDb
  certArn : String
  certRegion : String
  passphraseArn : String
  passphraseRegion : String
deriving DecidableEq

/-- The constructed MongoDB connection object. -/
structure MongoDbInstanceDatabaseConnection where
  props : MongoDbInstanceConnectionOptions
  containerEnvironment : List (String × String)
  databaseConstruct : Option ConstructRef
deriving DecidableEq

/-- Transcription of the `MongoDbInstanceDatabaseConnection` constructor. -/
def MongoDbInstanceDatabaseConnection.make (props : MongoDbInstanceConnectionOptions) :
    MongoDbInstanceDatabaseConnection :=
  { props := props,
    containerEnvironment :=
      [("DB_TLS_CLIENT_CERT_URI", props.certArn),
       ("DB_TLS_CLIENT_CERT_PASSWORD_URI", props.passphraseArn)],
    databaseConstruct :=
      match props.database with
      | MongoDb.provisioned inst =>
        if inst.mongoDataVolume.isVolumeConstruct then
          some (ConstructRef.volume inst.mongoDataVolume)
        else none
      | MongoDb.imported _ _ => none }

/-- The fixed certificate path `MongoDbInstanceDatabaseConnection.DB_CERT_LOCATION`. -/
def DB_CERT_LOCATION : String := "/opt/Thinkbox/certs/mongo_client.pfx"

/-- Model of the stack scope that owns shared script assets: its script-asset
node children (construct id to asset identity) and a source of fresh asset
identities. -/
structure Stack where
  childAssets : List (String × Nat)
  nextAssetId : Nat
deriving DecidableEq

/-- Model of `stack.node.tryFindChild(id)` for script-asset children. -/
def Stack.tryFindChild (s : Stack) (cid : String) : Option Nat :=
  assocLookup s.childAssets cid

/-- Modelled from the spec: `ScriptAsset.fromPathConvention(stack, uniqueId, ...)`
lives in the `core` package, outside the given sources; per the spec it
constructs a fresh script-asset construct registered on the stack under
`uniqueId`. -/
def ScriptAsset.fromPathConvention (s : Stack) (cid : String) : Stack × Nat :=
  ({ childAssets := s.childAssets ++ [(cid, s.nextAssetId)],
     nextAssetId := s.nextAssetId + 1 },
   s.nextAssetId)

/-- Modelled from the spec: `scriptAsset.executeOn({host, args})` appends to the
boot script of the host a command running the downloaded script asset with the given
arguments. -/
def executeOnCommand (asset : Nat) (args : List String) : String :=
  "execute-script-asset-" ++ toString asset ++ " " ++ joinSep (" ") args

/-- Rendering of `OperatingSystemType` under JavaScript string concatenation:
the aws-cdk-lib enum is numeric, so `+ host.osType` appends its numeric value. -/
def osTypeCode : OperatingSystemType → String
  | OperatingSystemType.LINUX => "0"
  | OperatingSystemType.WINDOWS => "1"
  | OperatingSystemType.UNKNOWN => "2"

/-- The stable identifier of the per-OS-kind certificate-download script
resource, built as the concatenation of the literal GetSecretToFile, the OS
kind, and the fixed uuid with its dashes removed. -/
def downloadCertUniqueId (os : OperatingSystemType) : String :=
  "GetSecretToFile" ++ osTypeCode os ++ "e8125dd2ab2c48618ee4998c26b30ee0"

/-- Transcription of `MongoDbInstanceDatabaseConnection.downloadCertificate`:
look the script asset up on the stack under the OS-kind-derived id, construct
it only when absent, and emit its execution onto the host.  Returns the stack,
the host, and the asset that was used. -/
def MongoDbInstanceDatabaseConnection.downloadCertificate
    (props : MongoDbInstanceConnectionOptions) (st : Stack) (host : Host) :
    Stack × Host × Nat :=
  let uniqueId := downloadCertUniqueId host.osType
  let stAndAsset :=
    match st.tryFindChild uniqueId with
    | some a => (st, a)
    | none => ScriptAsset.fromPathConvention st uniqueId
  (stAndAsset.1,
   host.addCommands [executeOnCommand stAndAsset.2 [props.certArn, DB_CERT_LOCATION]],
   stAndAsset.2)

/-- The `INSTALLER_DB_ARGS` array assignment emitted by the MongoDB variant,
transcribed from the template literals of the source. -/
def mongoInstallerArgsLine (props : MongoDbInstanceConnectionOptions) : String :=
  "INSTALLER_DB_ARGS=( [\"--dbssl\"]=true [\"--dbauth\"]=true [\"--dbsslauth\"]=true "
    ++ "[\"--dbhost\"]=\"" ++ props.database.fullHostname ++ "\" [\"--dbport\"]="
    ++ toString props.database.port ++ " "
    ++ "[\"--dbclientcert\"]=\"" ++ DB_CERT_LOCATION ++ "\" [\"--dbcertpass\"]=$CERT_PASSWORD )"

/-- Commands emitted by `MongoDbInstanceDatabaseConnection.addInstallerDBArgs`,
in source order. -/
def mongoInstallerCommands (props : MongoDbInstanceConnectionOptions) : List String :=
  [ "configure_database_installation_args()\x7b",
    getJsonValLine,
    captureTraceLine,
    traceOffLine,
    "CERT_PASSWORD=$(aws secretsmanager get-secret-value --secret-id " ++ props.passphraseArn
      ++ " --region " ++ props.passphraseRegion ++ " | getJsonVal \x27SecretString\x27)",
    mongoInstallerArgsLine props,
    "unset CERT_PASSWORD",
    restoreTraceLine,
    "\x7d",
    "export -f configure_database_installation_args" ]

/-- Commands emitted by `MongoDbInstanceDatabaseConnection.addConnectionDBArgs`,
in source order. -/
def mongoConnectionCommands (props : MongoDbInstanceConnectionOptions) : List String :=
  [ "configure_deadline_database()\x7b",
    getJsonValLine,
    captureTraceLine,
    traceOffLine,
    "export DB_CERT_FILE=\"" ++ DB_CERT_LOCATION ++ "\"",
    "export DB_CERT_PASSWORD=$(aws secretsmanager get-secret-value --secret-id " ++ props.passphraseArn
      ++ " --region " ++ props.passphraseRegion ++ " | getJsonVal \x27SecretString\x27)",
    restoreTraceLine,
    "\x7d",
    "export -f configure_deadline_database" ]

/-- Transcription of `MongoDbInstanceDatabaseConnection.addInstallerDBArgs`.
The throw precedes the certificate download and any mutation, so both stack and
host are unchanged when the first component is `some`. -/
def MongoDbInstanceDatabaseConnection.addInstallerDBArgs
    (props : MongoDbInstanceConnectionOptions) (st : Stack) (host : Host) :
    Option String × Stack × Host :=
  if host.osType ≠ OperatingSystemType.LINUX then
    (some ("Can only install Deadline from a Linux instance."), st, host)
  else
    let dl := MongoDbInstanceDatabaseConnection.downloadCertificate props st host
    (none, dl.1, (dl.2.1).addCommands (mongoInstallerCommands props))

/-- Transcription of `MongoDbInstanceDatabaseConnection.addConnectionDBArgs`. -/
def MongoDbInstanceDatabaseConnection.addConnectionDBArgs
    (props : MongoDbInstanceConnectionOptions) (st : Stack) (host : Host) :
    Option String × Stack × Host :=
  if host.osType ≠ OperatingSystemType.LINUX then
    (some ("Connecting to the Deadline Database is currently only supported for Linux."), st, host)
  else
    let dl := MongoDbInstanceDatabaseConnection.downloadCertificate props st host
    (none, dl.1, (dl.2.1).addCommands (mongoConnectionCommands props))

/-- Transcription of `MongoDbInstanceDatabaseConnection.grantRead`: the read
grants it issues. -/
def MongoDbInstanceDatabaseConnection.grantRead
    (props : MongoDbInstanceConnectionOptions) (grantee : String) : List SecretGrant :=
  [⟨props.certArn, grantee⟩, ⟨props.passphraseArn, grantee⟩]

/-- Selector for one of the two script-generation operations. -/
inductive MongoScriptOp
  | installerOp
  | connectionOp
deriving DecidableEq

/-- Run one script-generation operation of the MongoDB variant. -/
def runMongoOp (props : MongoDbInstanceConnectionOptions) (op : MongoScriptOp)
    (st : Stack) (host : Host) : Option String × Stack × Host :=
  match op with
  | MongoScriptOp.installerOp => MongoDbInstanceDatabaseConnection.addInstallerDBArgs props st host
  | MongoScriptOp.connectionOp => MongoDbInstanceDatabaseConnection.addConnectionDBArgs props st host

/-- Run a sequence of script-generation operations within a single stack,
threading the stack through and discarding the per-invocation hosts. -/
def runMongoOps (props : MongoDbInstanceConnectionOptions) :
    List (MongoScriptOp × Host) → Stack → Stack
  | [], st => st
  | (op, h) :: rest, st => runMongoOps props rest (runMongoOp props op st h).2.1

/-- Rendering of one associative-array entry, following the description in the spec
of the installer argument set. -/
def renderArg (p : String × String) : String :=
  "[\"" ++ p.1 ++ "\"]=" ++ p.2

/-- Rendering of a whole `INSTALLER_DB_ARGS` assignment from flag/value pairs,
following the description of the installer argument set in the spec. -/
def renderInstallerArgsLine (args : List (String × String)) : String :=
  "INSTALLER_DB_ARGS=( " ++ joinSep (" ") (args.map renderArg) ++ " )"

/-- The flag/value pairs the spec claims for the DocumentDB installer
arguments. -/
def docdbClaimedArgs (props : DocDBConnectionOptions) : List (String × String) :=
  [("--dbuser", "$DB_USERNAME"), ("--dbpassword", "$DB_PASSWORD"),
   ("--dbhost", props.database.clusterHostname), ("--dbport", props.database.clusterPort),
   ("--dbtype", "DocumentDB")]

/-- The flag/value pairs the spec claims for the MongoDB installer arguments. -/
def mongoClaimedArgs (props : MongoDbInstanceConnectionOptions) : List (String × String) :=
  [("--dbssl", "true"), ("--dbauth", "true"), ("--dbsslauth", "true"),
   ("--dbhost", "\"" ++ props.database.fullHostname ++ "\""),
   ("--dbport", toString props.database.port),
   ("--dbclientcert", "\"" ++ DB_CERT_LOCATION ++ "\""),
   ("--dbcertpass", "$CERT_PASSWORD")]

/-- A string occurring contiguously inside another string. -/
def strMentions (needle hay : String) : Prop :=
  ∃ s t, hay.data = s ++ (needle.data ++ t)

/-- Fixture: an inline-provisioned cluster with a supported engine version. -/
def exDocDBGood : DocDBCluster :=
  ⟨"DocDbCluster", "docdb.cluster.internal", "8090", true,
   [("Resource", DocDBChild.cfnCluster ⟨some ("5.0.0"), none⟩),
    ("Instance1", DocDBChild.cfnInstance 7)]⟩

/-- Fixture: an inline-provisioned cluster with an unsupported engine version. -/
def exDocDBBad : DocDBCluster :=
  ⟨"DocDbCluster", "docdb.cluster.internal", "8090", true,
   [("Resource", DocDBChild.cfnCluster ⟨some ("2.0.0"), none⟩),
    ("Instance1", DocDBChild.cfnInstance 7)]⟩

/-- Fixture: a cluster imported from attributes (no children, not an L2
`DatabaseCluster`). -/
def exDocDBImported : DocDBCluster :=
  ⟨"ImportedDb", "imported.cluster.internal", "8090", false, []⟩

/-- Fixture: an inline-provisioned cluster whose instance child has an
unexpected name. -/
def exDocDBNoInstance : DocDBCluster :=
  ⟨"DocDbCluster", "docdb.cluster.internal", "8090", true,
   [("Resource", DocDBChild.cfnCluster ⟨some ("5.0.0"), none⟩),
    ("Instance9", DocDBChild.cfnInstance 7)]⟩

/-- Fixture options around `exDocDBGood`. -/
def exDocDBGoodProps : DocDBConnectionOptions :=
  ⟨exDocDBGood, "arn:aws:secretsmanager:login", "us-west-2"⟩

/-- Fixture options around `exDocDBBad`. -/
def exDocDBBadProps : DocDBConnectionOptions :=
  ⟨exDocDBBad, "arn:aws:secretsmanager:login", "us-west-2"⟩

/-- Fixture options around `exDocDBImported`. -/
def exDocDBImportedProps : DocDBConnectionOptions :=
  ⟨exDocDBImported, "arn:aws:secretsmanager:login", "us-west-2"⟩

/-- Fixture options around `exDocDBNoInstance`. -/
def exDocDBNoInstanceProps : DocDBConnectionOptions :=
  ⟨exDocDBNoInstance, "arn:aws:secretsmanager:login", "us-west-2"⟩

/-- Fixture: a provisioned data volume. -/
def exMongoVolume : MongoVolume := ⟨true, 3⟩

/-- Fixture: a provisioned MongoDB instance. -/
def exMongoInst : MongoDbInstanceModel := ⟨1, "mongo.internal", 27017, exMongoVolume⟩

/-- Fixture options around a provisioned MongoDB instance. -/
def exMongoProps : MongoDbInstanceConnectionOptions :=
  ⟨MongoDb.provisioned exMongoInst, "arn:aws:secretsmanager:cert", "us-west-2",
   "arn:aws:secretsmanager:passphrase", "us-west-2"⟩

/-- Fixture: a Linux host with an empty boot script. -/
def exLinuxHost : Host := ⟨OperatingSystemType.LINUX, []⟩

/-- Fixture: a Windows host with an empty boot script. -/
def exWindowsHost : Host := ⟨OperatingSystemType.WINDOWS, []⟩

/-- Fixture: a stack owning no script assets yet. -/
def exStack : Stack := ⟨[], 0⟩

/-- Fixture: two security groups. -/
def exSGs : List SecurityGroup := [⟨"sg-1234", "SGOne"⟩, ⟨"sg-5678", "SGTwo"⟩]

/-! Helper lemmas (shared). -/

/-- Appending strings concatenates their character lists. -/
theorem dataAppend (a b : String) : (a ++ b).data = a.data ++ b.data := by
  cases a; cases b; rfl

/-- Strings with equal character lists are equal. -/
theorem strExt (a b : String) (h : a.data = b.data) : a = b :=
  congrArg String.mk h

/-- Every string mentions itself. -/
theorem strMentions_self (n : String) : strMentions n n :=
  ⟨[], [], by simp⟩

/-- A mention in the left part survives appending on the right. -/
theorem strMentions_append_right (n a b : String) (h : strMentions n a) :
    strMentions n (a ++ b) := by
  obtain ⟨s, t, ht⟩ := h
  exact ⟨s, t ++ b.data, by simp [dataAppend, ht]⟩

/-- A mention in the right part survives appending on the left. -/
theorem strMentions_append_left (n a b : String) (h : strMentions n b) :
    strMentions n (a ++ b) := by
  obtain ⟨s, t, ht⟩ := h
  exact ⟨a.data ++ s, t, by simp [dataAppend, ht]⟩

/-- Every element of a list is mentioned in its separator join. -/
theorem strMentions_joinSep (sep x : String) (l : List String) (hx : x ∈ l) :
    strMentions x (joinSep sep l) := by
  induction l with
  | nil => exact absurd hx (List.not_mem_nil x)
  | cons a rest ih =>
    rcases List.mem_cons.mp hx with rfl | hmem
    · cases rest with
      | nil => exact strMentions_self x
      | cons b rest2 =>
        exact strMentions_append_right _ _ _
          (strMentions_append_right _ _ _ (strMentions_self x))
    · cases rest with
      | nil => exact absurd hmem (List.not_mem_nil x)
      | cons b rest2 =>
        exact strMentions_append_left _ _ _ (ih hmem)

/-- The node id of each listed security group is mentioned in the failure warning. -/
theorem failWarning_mentions (db : DocDBCluster) (sgs : List SecurityGroup)
    (reasons : List String) (sg : SecurityGroup) (hsg : sg ∈ sgs) :
    strMentions sg.nodeId
      ("Failed to add the following security groups to " ++ db.nodeId ++ ": "
        ++ joinSep (", ") (sgs.map (fun g => g.nodeId)) ++ ". "
        ++ joinSep (" ") reasons) := by
  have hj : strMentions sg.nodeId (joinSep (", ") (sgs.map (fun g => g.nodeId))) :=
    strMentions_joinSep _ _ _ (List.mem_map_of_mem _ hsg)
  exact strMentions_append_right _ _ _
    (strMentions_append_right _ _ _ (strMentions_append_left _ _ _ hj))

/-- Association lookup distributes over list append. -/
theorem assocLookup_append {α : Type} (l1 l2 : List (String × α)) (key : String) :
    assocLookup (l1 ++ l2) key =
      (match assocLookup l1 key with
       | some v => some v
       | none => assocLookup l2 key) := by
  induction l1 with
  | nil => simp [assocLookup]
  | cons p rest ih =>
    obtain ⟨k, v⟩ := p
    by_cases h : k = key
    · simp [assocLookup, h]
    · simp [assocLookup, h, ih]

/-- Appending a fresh binding makes it visible to lookup. -/
theorem assocLookup_append_singleton {α : Type} (l : List (String × α))
    (key : String) (v : α) (h : assocLookup l key = none) :
    assocLookup (l ++ [(key, v)]) key = some v := by
  rw [assocLookup_append, h]
  simp [assocLookup]

/-- With the script asset already present on the stack, the certificate
download is a pure reuse. -/
theorem downloadCertificate_found (props : MongoDbInstanceConnectionOptions)
    (st : Stack) (host : Host) (a : Nat)
    (h : st.tryFindChild (downloadCertUniqueId host.osType) = some a) :
    MongoDbInstanceDatabaseConnection.downloadCertificate props st host
      = (st, host.addCommands [executeOnCommand a [props.certArn, DB_CERT_LOCATION]], a) := by
  simp [MongoDbInstanceDatabaseConnection.downloadCertificate, h]

/-- With the script asset absent, the certificate download constructs exactly
one new asset registered under the OS-kind-derived id. -/
theorem downloadCertificate_fresh (props : MongoDbInstanceConnectionOptions)
    (st : Stack) (host : Host)
    (h : st.tryFindChild (downloadCertUniqueId host.osType) = none) :
    MongoDbInstanceDatabaseConnection.downloadCertificate props st host
      = (⟨st.childAssets ++ [(downloadCertUniqueId host.osType, st.nextAssetId)],
          st.nextAssetId + 1⟩,
         host.addCommands [executeOnCommand st.nextAssetId [props.certArn, DB_CERT_LOCATION]],
         st.nextAssetId) := by
  simp [MongoDbInstanceDatabaseConnection.downloadCertificate, h,
    ScriptAsset.fromPathConvention]

/-- A script-generation operation on a Linux host leaves the stack unchanged
when the download script asset is already present. -/
theorem runMongoOp_stack_of_found (props : MongoDbInstanceConnectionOptions)
    (op : MongoScriptOp) (st : Stack) (host : Host) (a : Nat)
    (hlin : host.osType = OperatingSystemType.LINUX)
    (h : st.tryFindChild (downloadCertUniqueId host.osType) = some a) :
    (runMongoOp props op st host).2.1 = st := by
  have hdl := downloadCertificate_found props st host a h
  cases op <;>
    simp [runMongoOp, MongoDbInstanceDatabaseConnection.addInstallerDBArgs,
      MongoDbInstanceDatabaseConnection.addConnectionDBArgs, hlin, hdl]

/-- A script-generation operation on a Linux host registers exactly one new
asset when the download script asset is absent. -/
theorem runMongoOp_stack_of_fresh (props : MongoDbInstanceConnectionOptions)
    (op : MongoScriptOp) (st : Stack) (host : Host)
    (hlin : host.osType = OperatingSystemType.LINUX)
    (h : st.tryFindChild (downloadCertUniqueId host.osType) = none) :
    (runMongoOp props op st host).2.1
      = ⟨st.childAssets ++ [(downloadCertUniqueId host.osType, st.nextAssetId)],
         st.nextAssetId + 1⟩ := by
  have hdl := downloadCertificate_fresh props st host h
  cases op <;>
    simp [runMongoOp, MongoDbInstanceDatabaseConnection.addInstallerDBArgs,
      MongoDbInstanceDatabaseConnection.addConnectionDBArgs, hlin, hdl]

/-- Once the Linux download asset exists, any sequence of Linux script
invocations leaves the stack unchanged. -/
theorem runMongoOps_stable (props : MongoDbInstanceConnectionOptions)
    (ops : List (MongoScriptOp × Host)) (st : Stack) (a : Nat)
    (h : st.tryFindChild (downloadCertUniqueId OperatingSystemType.LINUX) = some a) :
    (∀ p ∈ ops, (Prod.snd p).osType = OperatingSystemType.LINUX) →
    runMongoOps props ops st = st := by
  induction ops with
  | nil => intro _; rfl
  | cons p rest ih =>
    intro hall
    obtain ⟨op, host⟩ := p
    have hlin : host.osType = OperatingSystemType.LINUX :=
      hall (op, host) (List.mem_cons_self _ _)
    have hstep : (runMongoOp props op st host).2.1 = st :=
      runMongoOp_stack_of_found props op st host a hlin (by rw [hlin]; exact h)
    show runMongoOps props rest (runMongoOp props op st host).2.1 = st
    rw [hstep]
    exact ih (fun q hq => hall q (List.mem_cons_of_mem _ hq))

/-! Claim theorems. -/

/-- C1: For every host and both variants, `addInstallerDBArgs` and
`addConnectionDBArgs` throw exactly when the OS kind of the host is not Linux,
and when they throw, the boot-script accumulator of the host (and, for the MongoDB
variant, the stack) is unchanged. -/
theorem C1_os_kind_gate (dprops : DocDBConnectionOptions)
    (mprops : MongoDbInstanceConnectionOptions) (st : Stack) (host : Host) :
    (((DocDBDatabaseConnection.addInstallerDBArgs dprops host).1.isSome = true
        ↔ host.osType ≠ OperatingSystemType.LINUX)
      ∧ (host.osType ≠ OperatingSystemType.LINUX →
          (DocDBDatabaseConnection.addInstallerDBArgs dprops host).2 = host))
    ∧ (((DocDBDatabaseConnection.addConnectionDBArgs dprops host).1.isSome = true
        ↔ host.osType ≠ OperatingSystemType.LINUX)
      ∧ (host.osType ≠ OperatingSystemType.LINUX →
          (DocDBDatabaseConnection.addConnectionDBArgs dprops host).2 = host))
    ∧ (((MongoDbInstanceDatabaseConnection.addInstallerDBArgs mprops st host).1.isSome = true
        ↔ host.osType ≠ OperatingSystemType.LINUX)
      ∧ (host.osType ≠ OperatingSystemType.LINUX →
          (MongoDbInstanceDatabaseConnection.addInstallerDBArgs mprops st host).2 = (st, host)))
    ∧ (((MongoDbInstanceDatabaseConnection.addConnectionDBArgs mprops st host).1.isSome = true
        ↔ host.osType ≠ OperatingSystemType.LINUX)
      ∧ (host.osType ≠ OperatingSystemType.LINUX →
          (MongoDbInstanceDatabaseConnection.addConnectionDBArgs mprops st host).2 = (st, host))) := by
  by_cases h : host.osType = OperatingSystemType.LINUX <;>
    simp [DocDBDatabaseConnection.addInstallerDBArgs,
      DocDBDatabaseConnection.addConnectionDBArgs,
      MongoDbInstanceDatabaseConnection.addInstallerDBArgs,
      MongoDbInstanceDatabaseConnection.addConnectionDBArgs, h]

/-- Witness for C1 at a Windows host: all four operations throw and leave the
accumulator (and stack) unchanged. -/
theorem C1_os_kind_gate_witness :
    ((DocDBDatabaseConnection.addInstallerDBArgs exDocDBGoodProps exWindowsHost).1.isSome = true
      ∧ (DocDBDatabaseConnection.addInstallerDBArgs exDocDBGoodProps exWindowsHost).2 = exWindowsHost)
    ∧ ((DocDBDatabaseConnection.addConnectionDBArgs exDocDBGoodProps exWindowsHost).1.isSome = true
      ∧ (DocDBDatabaseConnection.addConnectionDBArgs exDocDBGoodProps exWindowsHost).2 = exWindowsHost)
    ∧ ((MongoDbInstanceDatabaseConnection.addInstallerDBArgs exMongoProps exStack exWindowsHost).1.isSome = true
      ∧ (MongoDbInstanceDatabaseConnection.addInstallerDBArgs exMongoProps exStack exWindowsHost).2 = (exStack, exWindowsHost))
    ∧ ((MongoDbInstanceDatabaseConnection.addConnectionDBArgs exMongoProps exStack exWindowsHost).1.isSome = true
      ∧ (MongoDbInstanceDatabaseConnection.addConnectionDBArgs exMongoProps exStack exWindowsHost).2 = (exStack, exWindowsHost)) := by
  have h := C1_os_kind_gate exDocDBGoodProps exMongoProps exStack exWindowsHost
  exact ⟨⟨h.1.1.mpr (by decide), h.1.2 (by decide)⟩,
    ⟨h.2.1.1.mpr (by decide), h.2.1.2 (by decide)⟩,
    ⟨h.2.2.1.1.mpr (by decide), h.2.2.1.2 (by decide)⟩,
    ⟨h.2.2.2.1.mpr (by decide), h.2.2.2.2 (by decide)⟩⟩

/-- C2: Constructing the DocumentDB variant adds no diagnostic when the
discoverable engine version starts with 3.6, 4.0 or 5.0; adds exactly one
diagnostic on the database for any other version string; and adds none when
the version cannot be determined because the cluster has no default child
(it was imported). -/
theorem C2_docdb_version_diagnostics (props : DocDBConnectionOptions) :
    ((∃ ch v, props.database.defaultChild = some ch ∧ ch.castEngineVersion = some v
        ∧ (strStartsWith v ("3.6") = true ∨ strStartsWith v ("4.0") = true
            ∨ strStartsWith v ("5.0") = true)) →
      (DocDBDatabaseConnection.make props).2 = [])
    ∧ ((∃ ch v, props.database.defaultChild = some ch ∧ ch.castEngineVersion = some v
        ∧ strStartsWith v ("3.6") = false ∧ strStartsWith v ("4.0") = false
        ∧ strStartsWith v ("5.0") = false) →
      (DocDBDatabaseConnection.make props).2 =
        [⟨Severity.fatalError, props.database.nodeId,
          "engineVersion must be one of 3.6.0, 4.0.0 or 5.0.0 to be compatible with Deadline"⟩])
    ∧ (props.database.defaultChild = none → (DocDBDatabaseConnection.make props).2 = []) := by
  refine ⟨?_, ?_, ?_⟩
  · rintro ⟨ch, v, hch, hv, hOK⟩
    have hcompat : isCompatibleDocDBVersion props.database = true := by
      rw [isCompatibleDocDBVersion, hch]
      simp only [hv]
      rcases hOK with h | h | h <;> simp [h]
    simp [DocDBDatabaseConnection.make, hcompat]
  · rintro ⟨ch, v, hch, hv, h1, h2, h3⟩
    have hcompat : isCompatibleDocDBVersion props.database = false := by
      rw [isCompatibleDocDBVersion, hch]
      simp only [hv]
      simp [h1, h2, h3]
    simp [DocDBDatabaseConnection.make, hcompat]
  · intro hnone
    have hcompat : isCompatibleDocDBVersion props.database = true := by
      rw [isCompatibleDocDBVersion, hnone]
    simp [DocDBDatabaseConnection.make, hcompat]

/-- Witness for C2 at three concrete clusters: supported version, unsupported
version, imported cluster. -/
theorem C2_docdb_version_diagnostics_witness :
    (DocDBDatabaseConnection.make exDocDBGoodProps).2 = []
    ∧ (DocDBDatabaseConnection.make exDocDBBadProps).2 =
        [⟨Severity.fatalError, "DocDbCluster",
          "engineVersion must be one of 3.6.0, 4.0.0 or 5.0.0 to be compatible with Deadline"⟩]
    ∧ (DocDBDatabaseConnection.make exDocDBImportedProps).2 = [] :=
  ⟨(C2_docdb_version_diagnostics exDocDBGoodProps).1
      ⟨DocDBChild.cfnCluster ⟨some ("5.0.0"), none⟩, "5.0.0", by decide, rfl,
        Or.inr (Or.inr (by decide))⟩,
   (C2_docdb_version_diagnostics exDocDBBadProps).2.1
      ⟨DocDBChild.cfnCluster ⟨some ("2.0.0"), none⟩, "2.0.0", by decide, rfl,
        by decide, by decide, by decide⟩,
   (C2_docdb_version_diagnostics exDocDBImportedProps).2.2 (by decide)⟩

/-- C3: For the DocumentDB variant, `addChildDependency` adds an edge from the
consumer to the child named `Instance1` when that child exists; throws when it
does not but the cluster has a default child (provisioned inline); and is a
no-op adding no edge when it does not and the cluster has no default child
(imported). -/
theorem C3_docdb_add_child_dependency (props : DocDBConnectionOptions)
    (edges : List DepEdge) (child : String) :
    (∀ inst, props.database.tryFindChild ("Instance1") = some inst →
      DocDBDatabaseConnection.addChildDependency props edges child
        = (none, edges ++ [⟨child, inst⟩]))
    ∧ (props.database.tryFindChild ("Instance1") = none →
        (props.database.defaultChild).isSome = true →
        (DocDBDatabaseConnection.addChildDependency props edges child).1.isSome = true
          ∧ (DocDBDatabaseConnection.addChildDependency props edges child).2 = edges)
    ∧ (props.database.tryFindChild ("Instance1") = none →
        props.database.defaultChild = none →
        DocDBDatabaseConnection.addChildDependency props edges child = (none, edges)) := by
  refine ⟨?_, ?_, ?_⟩
  · intro inst hfind
    simp [DocDBDatabaseConnection.addChildDependency, hfind]
  · intro hnone hsome
    simp [DocDBDatabaseConnection.addChildDependency, hnone, hsome]
  · intro hnone hdefault
    simp [DocDBDatabaseConnection.addChildDependency, hnone, hdefault]

/-- Witness for C3 at three concrete clusters: instance present, instance
renamed on an inline cluster, imported cluster. -/
theorem C3_docdb_add_child_dependency_witness :
    DocDBDatabaseConnection.addChildDependency exDocDBGoodProps [] ("RepoInstaller")
      = (none, [⟨"RepoInstaller", DocDBChild.cfnInstance 7⟩])
    ∧ ((DocDBDatabaseConnection.addChildDependency exDocDBNoInstanceProps [] ("RepoInstaller")).1.isSome = true
      ∧ (DocDBDatabaseConnection.addChildDependency exDocDBNoInstanceProps [] ("RepoInstaller")).2 = [])
    ∧ DocDBDatabaseConnection.addChildDependency exDocDBImportedProps [] ("RepoInstaller")
      = (none, []) :=
  ⟨(C3_docdb_add_child_dependency exDocDBGoodProps [] ("RepoInstaller")).1
      (DocDBChild.cfnInstance 7) (by decide),
   (C3_docdb_add_child_dependency exDocDBNoInstanceProps [] ("RepoInstaller")).2.1
      (by decide) (by decide),
   (C3_docdb_add_child_dependency exDocDBImportedProps [] ("RepoInstaller")).2.2
      (by decide) (by decide)⟩

/-- C4: On an inline-provisioned cluster exposing its first instance, two
`addChildDependency` calls with distinct consumers both succeed and produce
two distinct edges, each from its consumer, both terminating at the same
instance resource. -/
theorem C4_docdb_two_child_dependencies (props : DocDBConnectionOptions)
    (edges : List DepEdge) (c1 c2 : String) (inst : DocDBChild)
    (hfind : props.database.tryFindChild ("Instance1") = some inst)
    (_hinline : (props.database.defaultChild).isSome = true)
    (hne : c1 ≠ c2) :
    (DocDBDatabaseConnection.addChildDependency props edges c1).1 = none
    ∧ (DocDBDatabaseConnection.addChildDependency props
        (DocDBDatabaseConnection.addChildDependency props edges c1).2 c2).1 = none
    ∧ (DocDBDatabaseConnection.addChildDependency props
        (DocDBDatabaseConnection.addChildDependency props edges c1).2 c2).2
      = edges ++ [⟨c1, inst⟩, ⟨c2, inst⟩]
    ∧ (⟨c1, inst⟩ : DepEdge) ≠ ⟨c2, inst⟩ := by
  refine ⟨?_, ?_, ?_, ?_⟩ <;>
    simp [DocDBDatabaseConnection.addChildDependency, hfind, hne]

/-- Witness for C4 at a concrete inline-provisioned cluster and two distinct
consumers. -/
theorem C4_docdb_two_child_dependencies_witness :
    (DocDBDatabaseConnection.addChildDependency exDocDBGoodProps [] ("WorkerA")).1 = none
    ∧ (DocDBDatabaseConnection.addChildDependency exDocDBGoodProps
        (DocDBDatabaseConnection.addChildDependency exDocDBGoodProps [] ("WorkerA")).2 ("WorkerB")).1 = none
    ∧ (DocDBDatabaseConnection.addChildDependency exDocDBGoodProps
        (DocDBDatabaseConnection.addChildDependency exDocDBGoodProps [] ("WorkerA")).2 ("WorkerB")).2
      = [⟨"WorkerA", DocDBChild.cfnInstance 7⟩, ⟨"WorkerB", DocDBChild.cfnInstance 7⟩]
    ∧ (⟨"WorkerA", DocDBChild.cfnInstance 7⟩ : DepEdge) ≠ ⟨"WorkerB", DocDBChild.cfnInstance 7⟩ := by
  have h := C4_docdb_two_child_dependencies exDocDBGoodProps [] ("WorkerA") ("WorkerB")
    (DocDBChild.cfnInstance 7) (by decide) (by decide) (by decide)
  simpa using h

/-- C5: Within a single stack, the per-OS-kind certificate-download script
resource is created at most once.  First part: a second download for a host of
the same OS kind reuses the already-registered script asset (same identity) and
leaves the stack unchanged.  Second part: any nonempty sequence of
script-generation invocations on Linux hosts, starting from a stack without
the asset, registers exactly one new script asset, keyed by the
OS-kind-derived identifier. -/
theorem C5_cert_script_resource_dedup (props : MongoDbInstanceConnectionOptions) :
    (∀ (st : Stack) (h1 h2 : Host), h1.osType = h2.osType →
      (MongoDbInstanceDatabaseConnection.downloadCertificate props
          (MongoDbInstanceDatabaseConnection.downloadCertificate props st h1).1 h2).1
        = (MongoDbInstanceDatabaseConnection.downloadCertificate props st h1).1
      ∧ (MongoDbInstanceDatabaseConnection.downloadCertificate props
          (MongoDbInstanceDatabaseConnection.downloadCertificate props st h1).1 h2).2.2
        = (MongoDbInstanceDatabaseConnection.downloadCertificate props st h1).2.2)
    ∧ (∀ (ops : List (MongoScriptOp × Host)) (st : Stack), ops ≠ [] →
        (∀ p ∈ ops, (Prod.snd p).osType = OperatingSystemType.LINUX) →
        st.tryFindChild (downloadCertUniqueId OperatingSystemType.LINUX) = none →
        (runMongoOps props ops st).childAssets
          = st.childAssets
              ++ [(downloadCertUniqueId OperatingSystemType.LINUX, st.nextAssetId)]) := by
  constructor
  · intro st h1 h2 hos
    cases hfound : st.tryFindChild (downloadCertUniqueId h1.osType) with
    | some a =>
      have hfound2 : st.tryFindChild (downloadCertUniqueId h2.osType) = some a := by
        rw [← hos]; exact hfound
      rw [downloadCertificate_found props st h1 a hfound]
      rw [downloadCertificate_found props st h2 a hfound2]
      exact ⟨rfl, rfl⟩
    | none =>
      have hd1 := downloadCertificate_fresh props st h1 hfound
      rw [hd1]
      have hfound2 :
          (⟨st.childAssets ++ [(downloadCertUniqueId h1.osType, st.nextAssetId)],
            st.nextAssetId + 1⟩ : Stack).tryFindChild (downloadCertUniqueId h2.osType)
            = some st.nextAssetId := by
        rw [← hos]
        exact assocLookup_append_singleton _ _ _ hfound
      rw [downloadCertificate_found props _ h2 st.nextAssetId hfound2]
      exact ⟨rfl, rfl⟩
  · intro ops st hne hall hfresh
    cases ops with
    | nil => exact absurd rfl hne
    | cons p rest =>
      obtain ⟨op, h0⟩ := p
      have hlin : h0.osType = OperatingSystemType.LINUX :=
        hall (op, h0) (List.mem_cons_self _ _)
      have hfresh0 : st.tryFindChild (downloadCertUniqueId h0.osType) = none := by
        rw [hlin]; exact hfresh
      have hstep := runMongoOp_stack_of_fresh props op st h0 hlin hfresh0
      rw [hlin] at hstep
      have hlookup :
          (⟨st.childAssets
              ++ [(downloadCertUniqueId OperatingSystemType.LINUX, st.nextAssetId)],
            st.nextAssetId + 1⟩ : Stack).tryFindChild
            (downloadCertUniqueId OperatingSystemType.LINUX) = some st.nextAssetId :=
        assocLookup_append_singleton _ _ _ hfresh
      have hrest : ∀ q ∈ rest, (Prod.snd q).osType = OperatingSystemType.LINUX :=
        fun q hq => hall q (List.mem_cons_of_mem _ hq)
      show (runMongoOps props rest (runMongoOp props op st h0).2.1).childAssets = _
      rw [hstep, runMongoOps_stable props rest _ st.nextAssetId hlookup hrest]

/-- Witness for C5: a concrete installer-then-connection run on Linux hosts in
a fresh stack registers exactly one script asset, and a concrete second
download reuses the first asset. -/
theorem C5_cert_script_resource_dedup_witness :
    (runMongoOps exMongoProps
        [(MongoScriptOp.installerOp, exLinuxHost), (MongoScriptOp.connectionOp, exLinuxHost)]
        exStack).childAssets
      = [(downloadCertUniqueId OperatingSystemType.LINUX, 0)]
    ∧ (MongoDbInstanceDatabaseConnection.downloadCertificate exMongoProps
        (MongoDbInstanceDatabaseConnection.downloadCertificate exMongoProps exStack exLinuxHost).1
        exLinuxHost).2.2
      = (MongoDbInstanceDatabaseConnection.downloadCertificate exMongoProps exStack exLinuxHost).2.2 := by
  have h := C5_cert_script_resource_dedup exMongoProps
  refine ⟨?_, (h.1 exStack exLinuxHost exLinuxHost rfl).2⟩
  have h2 := h.2
    [(MongoScriptOp.installerOp, exLinuxHost), (MongoScriptOp.connectionOp, exLinuxHost)]
    exStack (by decide) (by decide) rfl
  simpa using h2

/-- C6: On a cluster that is not an inline-provisioned `DatabaseCluster`, or
whose `Resource` child is not a `CfnDBCluster`, `addSecurityGroup` does not
throw, changes no cluster state, and adds exactly one warning whose text lists
the node id of every group passed in. -/
theorem C6_docdb_add_security_group_degrades (db : DocDBCluster)
    (sgs : List SecurityGroup)
    (h : db.isDatabaseCluster = false
      ∨ ∀ c, db.tryFindChild ("Resource") ≠ some (DocDBChild.cfnCluster c)) :
    (DocDBDatabaseConnection.addSecurityGroup db sgs).1 = db
    ∧ ∃ d, (DocDBDatabaseConnection.addSecurityGroup db sgs).2 = [d]
        ∧ d.severity = Severity.warning
        ∧ ∀ sg ∈ sgs, strMentions sg.nodeId d.message := by
  have key : ∃ reasons, DocDBDatabaseConnection.addSecurityGroup db sgs
      = (db, [⟨Severity.warning, db.nodeId,
          "Failed to add the following security groups to " ++ db.nodeId ++ ": "
            ++ joinSep (", ") (sgs.map (fun g => g.nodeId)) ++ ". "
            ++ joinSep (" ") reasons⟩]) := by
    cases hflag : db.isDatabaseCluster with
    | false =>
      exact ⟨["The \"database\" property passed to this class is not an instance of AWS CDK\x27s DocumentDB cluster construct."],
        by simp [DocDBDatabaseConnection.addSecurityGroup, hflag]⟩
    | true =>
      rcases h with hfalse | hnot
      · rw [hflag] at hfalse; cases hfalse
      · cases hres : db.tryFindChild ("Resource") with
        | none =>
          exact ⟨["The internal implementation of AWS CDK\x27s DocumentDB cluster construct has changed."],
            by simp [DocDBDatabaseConnection.addSecurityGroup, hflag, hres]⟩
        | some ch =>
          cases ch with
          | cfnCluster c => exact absurd hres (hnot c)
          | cfnInstance i =>
            exact ⟨["The internal implementation of AWS CDK\x27s DocumentDB cluster construct has changed."],
              by simp [DocDBDatabaseConnection.addSecurityGroup, hflag, hres]⟩
          | otherChild o =>
            exact ⟨["The internal implementation of AWS CDK\x27s DocumentDB cluster construct has changed."],
              by simp [DocDBDatabaseConnection.addSecurityGroup, hflag, hres]⟩
  obtain ⟨reasons, hkey⟩ := key
  rw [hkey]
  exact ⟨rfl, ⟨_, rfl, rfl, fun sg hsg => failWarning_mentions db sgs reasons sg hsg⟩⟩

/-- Witness for C6 at a concrete imported cluster and two concrete groups. -/
theorem C6_docdb_add_security_group_degrades_witness :
    (DocDBDatabaseConnection.addSecurityGroup exDocDBImported exSGs).1 = exDocDBImported
    ∧ ∃ d, (DocDBDatabaseConnection.addSecurityGroup exDocDBImported exSGs).2 = [d]
        ∧ d.severity = Severity.warning
        ∧ ∀ sg ∈ exSGs, strMentions sg.nodeId d.message :=
  C6_docdb_add_security_group_degrades exDocDBImported exSGs (Or.inl rfl)

set_option maxRecDepth 100000 in
/-- C7: On a Linux host the emitted `INSTALLER_DB_ARGS` assignment populates
the array with exactly the claimed flags: for DocumentDB the flags
`--dbuser, --dbpassword, --dbhost, --dbport, --dbtype=DocumentDB`, and for
MongoDB the flags `--dbssl=true, --dbauth=true, --dbsslauth=true, --dbhost,
--dbport, --dbclientcert, --dbcertpass`. -/
theorem C7_installer_flags (dprops : DocDBConnectionOptions)
    (mprops : MongoDbInstanceConnectionOptions) :
    ((docdbInstallerCommands dprops)[8]? = some (docdbInstallerArgsLine dprops)
      ∧ docdbInstallerArgsLine dprops = renderInstallerArgsLine (docdbClaimedArgs dprops)
      ∧ (docdbClaimedArgs dprops).map Prod.fst
        = ["--dbuser", "--dbpassword", "--dbhost", "--dbport", "--dbtype"])
    ∧ ((mongoInstallerCommands mprops)[5]? = some (mongoInstallerArgsLine mprops)
      ∧ mongoInstallerArgsLine mprops = renderInstallerArgsLine (mongoClaimedArgs mprops)
      ∧ (mongoClaimedArgs mprops).map Prod.fst
        = ["--dbssl", "--dbauth", "--dbsslauth", "--dbhost", "--dbport",
           "--dbclientcert", "--dbcertpass"]) := by
  refine ⟨⟨rfl, ?_, rfl⟩, ⟨rfl, ?_, rfl⟩⟩
  · apply strExt
    simp only [docdbInstallerArgsLine, renderInstallerArgsLine, docdbClaimedArgs,
      List.map, renderArg, joinSep, dataAppend, List.append_assoc]
    rfl
  · apply strExt
    simp only [mongoInstallerArgsLine, renderInstallerArgsLine, mongoClaimedArgs,
      List.map, renderArg, joinSep, dataAppend, List.append_assoc]
    rfl

/-- C8: `grantRead` issues exactly one secret read grant (the login secret) for
the DocumentDB variant and exactly two (certificate secret, then passphrase
secret) for the MongoDB variant. -/
theorem C8_grant_read_counts (dprops : DocDBConnectionOptions)
    (mprops : MongoDbInstanceConnectionOptions) (grantee : String) :
    DocDBDatabaseConnection.grantRead dprops grantee
      = [⟨dprops.loginSecretArn, grantee⟩]
    ∧ MongoDbInstanceDatabaseConnection.grantRead mprops grantee
      = [⟨mprops.certArn, grantee⟩, ⟨mprops.passphraseArn, grantee⟩] :=
  ⟨rfl, rfl⟩

/-- C9 counterexample: on a Linux host the MongoDB operation
`addConnectionDBArgs` succeeds and its emitted function body extracts the
certificate passphrase into the `DB_CERT_PASSWORD` shell variable, yet no
emitted command is an `unset`, so it is not the case that every extracted
credential shell variable is unset before command tracing is restored. -/
theorem C9_mongo_connection_no_unset :
    (MongoDbInstanceDatabaseConnection.addConnectionDBArgs exMongoProps exStack exLinuxHost).1 = none
    ∧ ((mongoConnectionCommands exMongoProps)[5]?).map
        (fun c => strStartsWith c ("export DB_CERT_PASSWORD=")) = some true
    ∧ (mongoConnectionCommands exMongoProps).all
        (fun c => !(strStartsWith c ("unset"))) = true := by
  refine ⟨rfl, ?_, ?_⟩ <;> decide

/-- C9 (amended): For the two DocumentDB operations and the MongoDB installer
operation, after the extracted credential values are used,
every extracted credential shell variable is unset, and only then is command
tracing restored to its captured prior state before the function body ends;
the MongoDB connection operation instead deliberately keeps its
exported credential variables set (the export is its runtime credential
handoff) and restores tracing directly before the body ends. -/
theorem C9_amended_secure_script_unsets (dprops : DocDBConnectionOptions)
    (mprops : MongoDbInstanceConnectionOptions) :
    ((docdbInstallerCommands dprops)[8]? = some (docdbInstallerArgsLine dprops)
      ∧ (docdbInstallerCommands dprops).drop 9
        = ["unset DB_USERNAME", "unset DB_PASSWORD", restoreTraceLine, "\x7d",
           "export -f configure_database_installation_args"])
    ∧ ((docdbConnectionCommands dprops)[8]? = some docdbStoreCredentialsLine
      ∧ (docdbConnectionCommands dprops).drop 9
        = ["unset DB_USERNAME", "unset DB_PASSWORD", restoreTraceLine, "\x7d",
           "export -f configure_deadline_database"])
    ∧ ((mongoInstallerCommands mprops)[5]? = some (mongoInstallerArgsLine mprops)
      ∧ (mongoInstallerCommands mprops).drop 6
        = ["unset CERT_PASSWORD", restoreTraceLine, "\x7d",
           "export -f configure_database_installation_args"])
    ∧ (mongoConnectionCommands mprops).drop 6
        = [restoreTraceLine, "\x7d", "export -f configure_deadline_database"] :=
  ⟨⟨rfl, rfl⟩, ⟨rfl, rfl⟩, ⟨rfl, rfl⟩, rfl⟩

/-- C10: The `databaseConstruct` attribute is fixed at construction: for the
DocumentDB variant it holds the database exactly when the database is an
inline-provisioned `DatabaseCluster`; for the MongoDB variant it holds the
data volume of the database (never the instance itself) exactly when the database
is an inline-provisioned `MongoDbInstance` whose data volume is a provisioned
`Volume` construct; otherwise it is undefined. -/
theorem C10_database_construct (dprops : DocDBConnectionOptions)
    (mprops : MongoDbInstanceConnectionOptions) :
    (∀ c, (DocDBDatabaseConnection.make dprops).1.databaseConstruct = some c ↔
        (dprops.database.isDatabaseCluster = true
          ∧ c = ConstructRef.docdbCluster dprops.database))
    ∧ (∀ c, (MongoDbInstanceDatabaseConnection.make mprops).databaseConstruct = some c ↔
        ∃ inst, mprops.database = MongoDb.provisioned inst
          ∧ inst.mongoDataVolume.isVolumeConstruct = true
          ∧ c = ConstructRef.volume inst.mongoDataVolume) := by
  constructor
  · intro c
    have hred : (DocDBDatabaseConnection.make dprops).1.databaseConstruct
        = (if dprops.database.isDatabaseCluster then
            some (ConstructRef.docdbCluster dprops.database)
          else none) := rfl
    rw [hred]
    cases hflag : dprops.database.isDatabaseCluster
    · simp [hflag]
    · simp only [hflag, if_true, Option.some.injEq, true_and]
      exact eq_comm
  · intro c
    have hred : (MongoDbInstanceDatabaseConnection.make mprops).databaseConstruct
        = (match mprops.database with
           | MongoDb.provisioned inst =>
             if inst.mongoDataVolume.isVolumeConstruct then
               some (ConstructRef.volume inst.mongoDataVolume)
             else none
           | MongoDb.imported _ _ => none) := rfl
    rw [hred]
    cases hdb : mprops.database with
    | provisioned inst =>
      show (if inst.mongoDataVolume.isVolumeConstruct then
          some (ConstructRef.volume inst.mongoDataVolume) else none) = some c ↔ _
      cases hvol : inst.mongoDataVolume.isVolumeConstruct
      · simp [hvol]
      · simp [hvol]
        exact eq_comm
    | imported hn pn => simp

/-- Witness for C10 at a concrete provisioned cluster and a concrete
provisioned MongoDB instance with a provisioned data volume. -/
theorem C10_database_construct_witness :
    (DocDBDatabaseConnection.make exDocDBGoodProps).1.databaseConstruct
      = some (ConstructRef.docdbCluster exDocDBGood)
    ∧ (MongoDbInstanceDatabaseConnection.make exMongoProps).databaseConstruct
      = some (ConstructRef.volume exMongoVolume) :=
  ⟨((C10_database_construct exDocDBGoodProps exMongoProps).1 _).mpr ⟨rfl, rfl⟩,
   ((C10_database_construct exDocDBGoodProps exMongoProps).2 _).mpr
     ⟨exMongoInst, rfl, rfl, rfl⟩⟩

end RFDK
